import Mathlib

/-!
# Verification of the workspace CLI file-attachment subsystem

Shallow embedding of the file ingestion pipeline (`src/lib/fileUtils.js`:
`isTextFile`, `getMimeType`, `prepareFileForUpload`, `writeDownloadedFile`),
the CLI attachment commands (`bin/workspace.js`: `bugs attach`,
`bugs link-file`) and the attachment graph, together with proofs of the
specification's claims about them.

Bytes are modelled as `Nat` (< 256), JavaScript strings in the content
pipeline as lists of Unicode code points (`Nat`), and machine words of the
SHA-256 engine as `Nat` reduced modulo `2 ^ 32` at every step.
-/

namespace Workspace

/-- A byte sequence: every entry is an actual byte. -/
def validBytes (bs : List Nat) : Bool := bs.all (· < 256)

/-! ## SHA-256 (the digest `crypto.createHash('sha256')` computes)

Executable model of SHA-256 over a list of bytes, producing the
lowercase-hex digest string as in Node's `hash.digest('hex')`. -/

/-- 32-bit modulus. -/
def M32 : Nat := 4294967296

/-- Right rotation of a 32-bit word. -/
def rotr (n w : Nat) : Nat := w / 2 ^ n + w % 2 ^ n * 2 ^ (32 - n)

def shr (n w : Nat) : Nat := w / 2 ^ n

def smallSigma0 (w : Nat) : Nat := (rotr 7 w) ^^^ (rotr 18 w) ^^^ (shr 3 w)

def smallSigma1 (w : Nat) : Nat := (rotr 17 w) ^^^ (rotr 19 w) ^^^ (shr 10 w)

def bigSigma0 (w : Nat) : Nat := (rotr 2 w) ^^^ (rotr 13 w) ^^^ (rotr 22 w)

def bigSigma1 (w : Nat) : Nat := (rotr 6 w) ^^^ (rotr 11 w) ^^^ (rotr 25 w)

def chFn (e f g : Nat) : Nat := (e &&& f) ^^^ ((e ^^^ 4294967295) &&& g)

def majFn (a b c : Nat) : Nat := (a &&& b) ^^^ (a &&& c) ^^^ (b &&& c)

/-- The 64 SHA-256 round constants. -/
def K256 : List Nat :=
  [1116352408, 1899447441, 3049323471, 3921009573, 961987163,
   1508970993, 2453635748, 2870763221, 3624381080, 310598401,
   607225278, 1426881987, 1925078388, 2162078206, 2614888103,
   3248222580, 3835390401, 4022224774, 264347078, 604807628,
   770255983, 1249150122, 1555081692, 1996064986, 2554220882,
   2821834349, 2952996808, 3210313671, 3336571891, 3584528711,
   113926993, 338241895, 666307205, 773529912, 1294757372,
   1396182291, 1695183700, 1986661051, 2177026350, 2456956037,
   2730485921, 2820302411, 3259730800, 3345764771, 3516065817,
   3600352804, 4094571909, 275423344, 430227734, 506948616,
   659060556, 883997877, 958139571, 1322822218, 1537002063,
   1747873779, 1955562222, 2024104815, 2227730452, 2361852424,
   2428436474, 2756734187, 3204031479, 3329325298]

/-- The eight working variables of the compression function. -/
structure Hash8 where
  a : Nat
  b : Nat
  c : Nat
  d : Nat
  e : Nat
  f : Nat
  g : Nat
  h : Nat
deriving Repr, DecidableEq

/-- SHA-256 initial hash value. -/
def initH : Hash8 :=
  ⟨1779033703, 3144134277, 1013904242, 2773480762, 1359893119, 2600822924, 528734635, 1541459225⟩

/-- One round of the compression function. -/
def sha256Round (s : Hash8) (k w : Nat) : Hash8 :=
  let t1 := (s.h + bigSigma1 s.e + chFn s.e s.f s.g + k + w) % M32
  let t2 := (bigSigma0 s.a + majFn s.a s.b s.c) % M32
  { a := (t1 + t2) % M32, b := s.a, c := s.b, d := s.c,
    e := (s.d + t1) % M32, f := s.e, g := s.f, h := s.g }

/-- Extend the 16 message words of a block by `n` further schedule words. -/
def extendW : Nat → List Nat → List Nat
  | 0, ws => ws
  | n + 1, ws =>
    let t := (smallSigma1 (ws.getD (ws.length - 2) 0) + ws.getD (ws.length - 7) 0 +
              smallSigma0 (ws.getD (ws.length - 15) 0) + ws.getD (ws.length - 16) 0) % M32
    extendW n (ws ++ [t])

/-- Pointwise 32-bit addition of hash states. -/
def add8 (x y : Hash8) : Hash8 :=
  ⟨(x.a + y.a) % M32, (x.b + y.b) % M32, (x.c + y.c) % M32, (x.d + y.d) % M32,
   (x.e + y.e) % M32, (x.f + y.f) % M32, (x.g + y.g) % M32, (x.h + y.h) % M32⟩

/-- Process one 16-word block. -/
def compressBlock (s : Hash8) (block : List Nat) : Hash8 :=
  let w := extendW 48 block
  let s' := (K256.zip w).foldl (fun st p => sha256Round st p.1 p.2) s
  add8 s s'

/-- Big-endian 8-byte encoding of the bit length. -/
def lenBytes (n : Nat) : List Nat :=
  (List.range 8).map (fun i => n / 2 ^ (8 * (7 - i)) % 256)

/-- SHA-256 padding: `0x80`, zeros to 56 mod 64, then the 64-bit bit length. -/
def padBytes (msg : List Nat) : List Nat :=
  msg ++ [128] ++ List.replicate ((119 - msg.length % 64) % 64) 0 ++ lenBytes (8 * msg.length)

/-- Pack big-endian bytes into 32-bit words, four at a time. -/
def toWords : List Nat → List Nat
  | a :: b :: c :: d :: rest => (((a * 256 + b) * 256 + c) * 256 + d) :: toWords rest
  | _ => []

/-- Split a word list into 16-word blocks (`fuel` bounds the recursion). -/
def toBlocks : Nat → List Nat → List (List Nat)
  | 0, _ => []
  | _, [] => []
  | n + 1, ws => ws.take 16 :: toBlocks n (ws.drop 16)

/-- The final hash state for a byte message. -/
def sha256State (msg : List Nat) : Hash8 :=
  let ws := toWords (padBytes msg)
  (toBlocks ws.length ws).foldl compressBlock initH

/-- Fixed-width lowercase hex rendering of a 32-bit word. -/
def wordHexChars (w : Nat) : List Char :=
  (List.range 8).map (fun i => Nat.digitChar (w / 2 ^ (4 * (7 - i)) % 16))

/-- The hex digest characters of a byte message. -/
def sha256HexChars (msg : List Nat) : List Char :=
  let s := sha256State msg
  [s.a, s.b, s.c, s.d, s.e, s.f, s.g, s.h].flatMap wordHexChars

/-- `createHash('sha256').update(buf).digest('hex')`. -/
def sha256hex (msg : List Nat) : String := String.mk (sha256HexChars msg)

/-! ## Base64 (`buf.toString('base64')` and `Buffer.from(s, 'base64')`)

The encoder follows RFC 4648 exactly as Node's `Buffer` does.  The decoder
models `Buffer.from(s, 'base64')` on canonical encodings (the only inputs
the pipeline ever feeds it): four characters at a time, with `=` padding
recognised at the end.  Character codes are used for the base64 text, so
`61` is `'='`. -/

/-- ASCII code of the base64 alphabet character for a 6-bit value. -/
def b64CharCode (v : Nat) : Nat :=
  if v < 26 then 65 + v
  else if v < 52 then 97 + (v - 26)
  else if v < 62 then 48 + (v - 52)
  else if v = 62 then 43
  else 47

/-- 6-bit value of a base64 alphabet character code. -/
def b64CodeVal (c : Nat) : Nat :=
  if 65 ≤ c ∧ c ≤ 90 then c - 65
  else if 97 ≤ c ∧ c ≤ 122 then 26 + (c - 97)
  else if 48 ≤ c ∧ c ≤ 57 then 52 + (c - 48)
  else if c = 43 then 62
  else 63

/-- `buf.toString('base64')`: three bytes become four characters, with
`=` padding for a final chunk of one or two bytes. -/
def b64encode : List Nat → List Nat
  | a :: b :: c :: rest =>
    b64CharCode (a / 4) :: b64CharCode (a % 4 * 16 + b / 16) ::
    b64CharCode (b % 16 * 4 + c / 64) :: b64CharCode (c % 64) :: b64encode rest
  | [a, b] => [b64CharCode (a / 4), b64CharCode (a % 4 * 16 + b / 16), b64CharCode (b % 16 * 4), 61]
  | [a] => [b64CharCode (a / 4), b64CharCode (a % 4 * 16), 61, 61]
  | [] => []

/-- `Buffer.from(s, 'base64')` on a canonical encoding. -/
def b64decode : List Nat → List Nat
  | c1 :: c2 :: c3 :: c4 :: rest =>
    if c3 = 61 then [b64CodeVal c1 * 4 + b64CodeVal c2 / 16]
    else if c4 = 61 then
      [b64CodeVal c1 * 4 + b64CodeVal c2 / 16,
       b64CodeVal c2 % 16 * 16 + b64CodeVal c3 / 4]
    else
      (b64CodeVal c1 * 4 + b64CodeVal c2 / 16) ::
      (b64CodeVal c2 % 16 * 16 + b64CodeVal c3 / 4) ::
      (b64CodeVal c3 % 4 * 64 + b64CodeVal c4) :: b64decode rest
  | _ => []

theorem b64CodeVal_charCode : ∀ v : Nat, v < 64 → b64CodeVal (b64CharCode v) = v := by
  decide

theorem b64CharCode_ne_eq : ∀ v : Nat, v < 64 → b64CharCode v ≠ 61 := by
  decide

/-- Base64 round-trip: decoding a canonical encoding recovers the bytes. -/
theorem b64decode_encode : ∀ bs : List Nat, validBytes bs = true → b64decode (b64encode bs) = bs
  | [], _ => by simp [b64encode, b64decode]
  | [a], h => by
    have ha : a < 256 := by simpa [validBytes] using h
    have h1 : a / 4 < 64 := by omega
    have h2 : a % 4 * 16 < 64 := by omega
    simp only [b64encode, b64decode, reduceIte, b64CodeVal_charCode _ h1,
      b64CodeVal_charCode _ h2, List.cons.injEq, and_true]
    omega
  | [a, b], h => by
    have hab : a < 256 ∧ b < 256 := by simpa [validBytes] using h
    obtain ⟨ha, hb⟩ := hab
    have h1 : a / 4 < 64 := by omega
    have h2 : a % 4 * 16 + b / 16 < 64 := by omega
    have h3 : b % 16 * 4 < 64 := by omega
    simp only [b64encode, b64decode]
    rw [if_neg (b64CharCode_ne_eq _ h3), if_pos trivial]
    simp only [b64CodeVal_charCode _ h1, b64CodeVal_charCode _ h2,
      b64CodeVal_charCode _ h3, List.cons.injEq, and_true]
    constructor <;> omega
  | a :: b :: c :: rest, h => by
    have habc : a < 256 ∧ b < 256 ∧ c < 256 ∧ validBytes rest = true := by
      simpa [validBytes, Bool.and_assoc] using h
    obtain ⟨ha, hb, hc, hrest⟩ := habc
    have h1 : a / 4 < 64 := by omega
    have h2 : a % 4 * 16 + b / 16 < 64 := by omega
    have h3 : b % 16 * 4 + c / 64 < 64 := by omega
    have h4 : c % 64 < 64 := by omega
    simp only [b64encode, b64decode]
    rw [if_neg (b64CharCode_ne_eq _ h3), if_neg (b64CharCode_ne_eq _ h4)]
    simp only [b64CodeVal_charCode _ h1, b64CodeVal_charCode _ h2,
      b64CodeVal_charCode _ h3, b64CodeVal_charCode _ h4, List.cons.injEq]
    exact ⟨by omega, by omega, by omega, b64decode_encode rest hrest⟩

/-! ## UTF-8 (`buf.toString('utf8')` and `writeFileSync` of a string)

`Buffer.prototype.toString('utf8')` decodes with U+FFFD replacement for
invalid sequences (the WHATWG decoder V8 implements); `writeFileSync` of a
JavaScript string writes its UTF-8 encoding.  Strings are represented as
lists of code points. -/

/-- UTF-8 continuation byte. -/
def contB (x : Nat) : Bool := decide (128 ≤ x ∧ x ≤ 191)

/-- Allowed second byte after a three-byte lead `b` (excludes overlong forms
and surrogates). -/
def mid3 (b b2 : Nat) : Bool :=
  decide ((if b = 224 then 160 else 128) ≤ b2 ∧ b2 ≤ (if b = 237 then 159 else 191))

/-- Allowed second byte after a four-byte lead `b` (excludes overlong forms
and code points above U+10FFFF). -/
def mid4 (b b2 : Nat) : Bool :=
  decide ((if b = 240 then 144 else 128) ≤ b2 ∧ b2 ≤ (if b = 244 then 143 else 191))

/-- UTF-8 encoding of one code point. -/
def utf8EncodeChar (c : Nat) : List Nat :=
  if c < 128 then [c]
  else if c < 2048 then [192 + c / 64, 128 + c % 64]
  else if c < 65536 then [224 + c / 4096, 128 + c / 64 % 64, 128 + c % 64]
  else [240 + c / 262144, 128 + c / 4096 % 64, 128 + c / 64 % 64, 128 + c % 64]

/-- UTF-8 encoding of a code-point sequence (what `writeFileSync` writes). -/
def utf8Encode : List Nat → List Nat
  | [] => []
  | c :: rest => utf8EncodeChar c ++ utf8Encode rest

/-- Lossy UTF-8 decoding with U+FFFD (65533) replacement, as
`buf.toString('utf8')` performs it: an invalid or truncated sequence yields
one replacement character per maximal subpart. -/
def utf8DecodeLossy : List Nat → List Nat
  | [] => []
  | [b] => if b < 128 then [b] else [65533]
  | [b, b2] =>
    if b < 128 then b :: utf8DecodeLossy [b2]
    else if 194 ≤ b ∧ b ≤ 223 then
      if contB b2 then [(b - 192) * 64 + (b2 - 128)] else 65533 :: utf8DecodeLossy [b2]
    else if 224 ≤ b ∧ b ≤ 239 then
      if mid3 b b2 then [65533] else 65533 :: utf8DecodeLossy [b2]
    else if 240 ≤ b ∧ b ≤ 244 then
      if mid4 b b2 then [65533] else 65533 :: utf8DecodeLossy [b2]
    else 65533 :: utf8DecodeLossy [b2]
  | [b, b2, b3] =>
    if b < 128 then b :: utf8DecodeLossy [b2, b3]
    else if 194 ≤ b ∧ b ≤ 223 then
      if contB b2 then ((b - 192) * 64 + (b2 - 128)) :: utf8DecodeLossy [b3]
      else 65533 :: utf8DecodeLossy [b2, b3]
    else if 224 ≤ b ∧ b ≤ 239 then
      if mid3 b b2 then
        if contB b3 then [(b - 224) * 4096 + (b2 - 128) * 64 + (b3 - 128)]
        else 65533 :: utf8DecodeLossy [b3]
      else 65533 :: utf8DecodeLossy [b2, b3]
    else if 240 ≤ b ∧ b ≤ 244 then
      if mid4 b b2 then
        if contB b3 then [65533] else 65533 :: utf8DecodeLossy [b3]
      else 65533 :: utf8DecodeLossy [b2, b3]
    else 65533 :: utf8DecodeLossy [b2, b3]
  | b :: b2 :: b3 :: b4 :: rest =>
    if b < 128 then b :: utf8DecodeLossy (b2 :: b3 :: b4 :: rest)
    else if 194 ≤ b ∧ b ≤ 223 then
      if contB b2 then ((b - 192) * 64 + (b2 - 128)) :: utf8DecodeLossy (b3 :: b4 :: rest)
      else 65533 :: utf8DecodeLossy (b2 :: b3 :: b4 :: rest)
    else if 224 ≤ b ∧ b ≤ 239 then
      if mid3 b b2 then
        if contB b3 then
          ((b - 224) * 4096 + (b2 - 128) * 64 + (b3 - 128)) :: utf8DecodeLossy (b4 :: rest)
        else 65533 :: utf8DecodeLossy (b3 :: b4 :: rest)
      else 65533 :: utf8DecodeLossy (b2 :: b3 :: b4 :: rest)
    else if 240 ≤ b ∧ b ≤ 244 then
      if mid4 b b2 then
        if contB b3 then
          if contB b4 then
            ((b - 240) * 262144 + (b2 - 128) * 4096 + (b3 - 128) * 64 + (b4 - 128)) ::
              utf8DecodeLossy rest
          else 65533 :: utf8DecodeLossy (b4 :: rest)
        else 65533 :: utf8DecodeLossy (b3 :: b4 :: rest)
      else 65533 :: utf8DecodeLossy (b2 :: b3 :: b4 :: rest)
    else 65533 :: utf8DecodeLossy (b2 :: b3 :: b4 :: rest)

/-- Well-formed UTF-8 byte sequences: the inputs on which the lossy decoder
performs no replacement. -/
def validUtf8 : List Nat → Bool
  | [] => true
  | [b] => decide (b < 128)
  | [b, b2] =>
    if b < 128 then validUtf8 [b2]
    else if 194 ≤ b ∧ b ≤ 223 then contB b2
    else false
  | [b, b2, b3] =>
    if b < 128 then validUtf8 [b2, b3]
    else if 194 ≤ b ∧ b ≤ 223 then contB b2 && validUtf8 [b3]
    else if 224 ≤ b ∧ b ≤ 239 then mid3 b b2 && contB b3
    else false
  | b :: b2 :: b3 :: b4 :: rest =>
    if b < 128 then validUtf8 (b2 :: b3 :: b4 :: rest)
    else if 194 ≤ b ∧ b ≤ 223 then contB b2 && validUtf8 (b3 :: b4 :: rest)
    else if 224 ≤ b ∧ b ≤ 239 then mid3 b b2 && (contB b3 && validUtf8 (b4 :: rest))
    else if 240 ≤ b ∧ b ≤ 244 then
      mid4 b b2 && (contB b3 && (contB b4 && validUtf8 rest))
    else false


theorem utf8EncodeChar2 (b b2 : Nat) (hb : 194 ≤ b ∧ b ≤ 223) (hc : contB b2 = true) :
    utf8EncodeChar ((b - 192) * 64 + (b2 - 128)) = [b, b2] := by
  simp only [contB, decide_eq_true_eq] at hc
  have h1 : ¬((b - 192) * 64 + (b2 - 128) < 128) := by omega
  have h2 : (b - 192) * 64 + (b2 - 128) < 2048 := by omega
  rw [utf8EncodeChar, if_neg h1, if_pos h2]
  simp only [List.cons.injEq, and_true]
  constructor <;> omega

theorem utf8EncodeChar3 (b b2 b3 : Nat) (hb : 224 ≤ b ∧ b ≤ 239)
    (hm : mid3 b b2 = true) (hc : contB b3 = true) :
    utf8EncodeChar ((b - 224) * 4096 + (b2 - 128) * 64 + (b3 - 128)) = [b, b2, b3] := by
  simp only [mid3, decide_eq_true_eq] at hm
  simp only [contB, decide_eq_true_eq] at hc
  have hb2' : 128 ≤ b2 ∧ b2 ≤ 191 ∧ 2048 ≤ (b - 224) * 4096 + (b2 - 128) * 64 := by
    obtain ⟨hma, hmb⟩ := hm
    by_cases hb0 : b = 224
    · subst hb0
      norm_num at hma hmb
      omega
    · rw [if_neg hb0] at hma
      by_cases hb1 : b = 237
      · subst hb1
        norm_num at hmb
        omega
      · rw [if_neg hb1] at hmb
        omega
  have h1 : ¬((b - 224) * 4096 + (b2 - 128) * 64 + (b3 - 128) < 128) := by omega
  have h2 : ¬((b - 224) * 4096 + (b2 - 128) * 64 + (b3 - 128) < 2048) := by omega
  have h3 : (b - 224) * 4096 + (b2 - 128) * 64 + (b3 - 128) < 65536 := by omega
  rw [utf8EncodeChar, if_neg h1, if_neg h2, if_pos h3]
  simp only [List.cons.injEq, and_true]
  refine ⟨by omega, by omega, by omega⟩

theorem utf8EncodeChar4 (b b2 b3 b4 : Nat) (hb : 240 ≤ b ∧ b ≤ 244)
    (hm : mid4 b b2 = true) (hc : contB b3 = true) (hd : contB b4 = true) :
    utf8EncodeChar ((b - 240) * 262144 + (b2 - 128) * 4096 + (b3 - 128) * 64 + (b4 - 128)) =
      [b, b2, b3, b4] := by
  simp only [mid4, decide_eq_true_eq] at hm
  simp only [contB, decide_eq_true_eq] at hc hd
  have hb2' : 128 ≤ b2 ∧ b2 ≤ 191 ∧ 65536 ≤ (b - 240) * 262144 + (b2 - 128) * 4096 := by
    obtain ⟨hma, hmb⟩ := hm
    by_cases hb0 : b = 240
    · subst hb0
      norm_num at hma hmb
      omega
    · rw [if_neg hb0] at hma
      by_cases hb1 : b = 244
      · subst hb1
        norm_num at hmb
        omega
      · rw [if_neg hb1] at hmb
        omega
  have h1 : ¬((b - 240) * 262144 + (b2 - 128) * 4096 + (b3 - 128) * 64 + (b4 - 128) < 128) := by
    omega
  have h2 : ¬((b - 240) * 262144 + (b2 - 128) * 4096 + (b3 - 128) * 64 + (b4 - 128) < 2048) := by
    omega
  have h3 : ¬((b - 240) * 262144 + (b2 - 128) * 4096 + (b3 - 128) * 64 + (b4 - 128) < 65536) := by
    omega
  rw [utf8EncodeChar, if_neg h1, if_neg h2, if_neg h3]
  simp only [List.cons.injEq, and_true]
  refine ⟨by omega, by omega, by omega, by omega⟩

/-- UTF-8 round-trip: on well-formed byte sequences, re-encoding the lossy
decoding recovers the bytes. -/
theorem utf8Encode_decode : ∀ bs : List Nat, validUtf8 bs = true →
    utf8Encode (utf8DecodeLossy bs) = bs
  | [], _ => rfl
  | [b], h => by
    rw [validUtf8] at h
    simp only [decide_eq_true_eq] at h
    rw [utf8DecodeLossy, if_pos h]
    simp only [utf8Encode, utf8EncodeChar, if_pos h, List.append_nil]
  | [b, b2], h => by
    rw [validUtf8] at h
    by_cases h1 : b < 128
    · rw [if_pos h1] at h
      rw [utf8DecodeLossy, if_pos h1, utf8Encode, utf8Encode_decode [b2] h,
        utf8EncodeChar, if_pos h1]
      rfl
    · rw [if_neg h1] at h
      by_cases h2 : 194 ≤ b ∧ b ≤ 223
      · rw [if_pos h2] at h
        rw [utf8DecodeLossy, if_neg h1, if_pos h2, if_pos h]
        simp only [utf8Encode, List.append_nil]
        exact utf8EncodeChar2 b b2 h2 h
      · rw [if_neg h2] at h
        exact absurd h (by simp)
  | [b, b2, b3], h => by
    rw [validUtf8] at h
    by_cases h1 : b < 128
    · rw [if_pos h1] at h
      rw [utf8DecodeLossy, if_pos h1, utf8Encode, utf8Encode_decode [b2, b3] h,
        utf8EncodeChar, if_pos h1]
      rfl
    · rw [if_neg h1] at h
      by_cases h2 : 194 ≤ b ∧ b ≤ 223
      · rw [if_pos h2] at h
        rw [Bool.and_eq_true] at h
        obtain ⟨hc, hrest⟩ := h
        rw [utf8DecodeLossy, if_neg h1, if_pos h2, if_pos hc, utf8Encode,
          utf8Encode_decode [b3] hrest, utf8EncodeChar2 b b2 h2 hc]
        rfl
      · rw [if_neg h2] at h
        by_cases h3 : 224 ≤ b ∧ b ≤ 239
        · rw [if_pos h3] at h
          rw [Bool.and_eq_true] at h
          obtain ⟨hm, hc3⟩ := h
          rw [utf8DecodeLossy, if_neg h1, if_neg h2, if_pos h3, if_pos hm, if_pos hc3]
          simp only [utf8Encode, List.append_nil]
          exact utf8EncodeChar3 b b2 b3 h3 hm hc3
        · rw [if_neg h3] at h
          exact absurd h (by simp)
  | b :: b2 :: b3 :: b4 :: rest, h => by
    rw [validUtf8] at h
    by_cases h1 : b < 128
    · rw [if_pos h1] at h
      rw [utf8DecodeLossy, if_pos h1, utf8Encode,
        utf8Encode_decode (b2 :: b3 :: b4 :: rest) h, utf8EncodeChar, if_pos h1]
      rfl
    · rw [if_neg h1] at h
      by_cases h2 : 194 ≤ b ∧ b ≤ 223
      · rw [if_pos h2] at h
        rw [Bool.and_eq_true] at h
        obtain ⟨hc, hrest⟩ := h
        rw [utf8DecodeLossy, if_neg h1, if_pos h2, if_pos hc, utf8Encode,
          utf8Encode_decode (b3 :: b4 :: rest) hrest, utf8EncodeChar2 b b2 h2 hc]
        rfl
      · rw [if_neg h2] at h
        by_cases h3 : 224 ≤ b ∧ b ≤ 239
        · rw [if_pos h3] at h
          simp only [Bool.and_eq_true] at h
          obtain ⟨hm, hc3, hrest⟩ := h
          rw [utf8DecodeLossy, if_neg h1, if_neg h2, if_pos h3, if_pos hm, if_pos hc3,
            utf8Encode, utf8Encode_decode (b4 :: rest) hrest,
            utf8EncodeChar3 b b2 b3 h3 hm hc3]
          rfl
        · rw [if_neg h3] at h
          by_cases h4 : 240 ≤ b ∧ b ≤ 244
          · rw [if_pos h4] at h
            simp only [Bool.and_eq_true] at h
            obtain ⟨hm, hc3, hc4, hrest⟩ := h
            rw [utf8DecodeLossy, if_neg h1, if_neg h2, if_neg h3, if_pos h4, if_pos hm,
              if_pos hc3, if_pos hc4, utf8Encode, utf8Encode_decode rest hrest,
              utf8EncodeChar4 b b2 b3 b4 h4 hm hc3 hc4]
            rfl
          · rw [if_neg h4] at h
            exact absurd h (by simp)

/-! ## Node path helpers (`path.basename`, `path.extname`) -/

/-- Characters after the last `/` of a path. -/
def afterLastSlash (cs : List Char) : List Char :=
  cs.foldl (fun acc c => if c = '/' then [] else acc ++ [c]) []

/-- `path.basename`. -/
def basenameJs (p : String) : String := String.mk (afterLastSlash p.data)

/-- `path.extname`: the substring from the last dot of the basename, or `""`
when there is no dot, the only dot leads the basename, or the basename is
`".."`. -/
def extnameJs (p : String) : String :=
  let b := afterLastSlash p.data
  if b = ['.', '.'] then ""
  else
    let pre := b.reverse.takeWhile (fun c => c ≠ '.')
    if pre.length = b.length then ""
    else if pre.length + 1 = b.length then ""
    else String.mk (b.drop (b.length - 1 - pre.length))

/-- `String.prototype.toLowerCase` (ASCII, which covers every extension in
the allow-list and MIME table). -/
def toLowerJs (s : String) : String := String.mk (s.data.map Char.toLower)

/-! ## The Classifier and MIME table (`src/lib/fileUtils.js`) -/

/-- `isTextFile`: the extension, lower-cased, is on the closed allow-list
`['.txt', '.md']`. -/
def isTextFile (filename : String) : Bool :=
  [".txt", ".md"].contains (toLowerJs (extnameJs filename))

/-- The `MIME_TYPES` extension table. -/
def MIME_TYPES : List (String × String) :=
  [(".txt", "text/plain"), (".md", "text/markdown"), (".csv", "text/csv"),
   (".json", "application/json"), (".xml", "application/xml"), (".html", "text/html"),
   (".htm", "text/html"), (".css", "text/css"), (".js", "application/javascript"),
   (".ts", "application/typescript"), (".pdf", "application/pdf"),
   (".doc", "application/msword"),
   (".docx", "application/vnd.openxmlformats-officedocument.wordprocessingml.document"),
   (".xls", "application/vnd.ms-excel"),
   (".xlsx", "application/vnd.openxmlformats-officedocument.spreadsheetml.sheet"),
   (".ppt", "application/vnd.ms-powerpoint"),
   (".pptx", "application/vnd.openxmlformats-officedocument.presentationml.presentation"),
   (".jpg", "image/jpeg"), (".jpeg", "image/jpeg"), (".png", "image/png"),
   (".gif", "image/gif"), (".svg", "image/svg+xml"), (".webp", "image/webp"),
   (".ico", "image/x-icon"), (".mp3", "audio/mpeg"), (".wav", "audio/wav"),
   (".ogg", "audio/ogg"), (".mp4", "video/mp4"), (".webm", "video/webm"),
   (".mov", "video/quicktime"), (".zip", "application/zip"), (".tar", "application/x-tar"),
   (".gz", "application/gzip"), (".7z", "application/x-7z-compressed"),
   (".bin", "application/octet-stream"), (".exe", "application/x-msdownload"),
   (".sh", "application/x-sh")]

/-- `getMimeType`: table lookup with the `application/octet-stream` fallback. -/
def getMimeType (filename : String) : String :=
  match MIME_TYPES.lookup (toLowerJs (extnameJs filename)) with
  | some m => m
  | none => "application/octet-stream"

/-! ## JavaScript string utilities used by the pipeline -/

/-- The whitespace class `String.prototype.trim` strips. -/
def jsWhitespace (c : Char) : Bool :=
  c = ' ' ∨ c = '\t' ∨ c = '\n' ∨ c = '\r' ∨ c = '\x0b' ∨ c = '\x0c' ∨
    c = '\u00A0' ∨ c = '\uFEFF'

/-- `String.prototype.trim`. -/
def jsTrim (s : String) : String :=
  String.mk (((s.data.dropWhile jsWhitespace).reverse.dropWhile jsWhitespace).reverse)

/-- `String.prototype.split` with a one-character separator, on the
character list (structurally recursive, so it evaluates in the kernel). -/
def splitCharList (sep : Char) : List Char → List (List Char)
  | [] => [[]]
  | c :: rest =>
    let r := splitCharList sep rest
    if c = sep then [] :: r
    else
      match r with
      | [] => [[c]]
      | g :: gs => (c :: g) :: gs

/-- `s.split(sep)` for a one-character separator. -/
def jsSplit (s : String) (sep : Char) : List String :=
  (splitCharList sep s.data).map String.mk

/-- `s.startsWith('/')`. -/
def startsWithSlash (s : String) : Bool :=
  match s.data with
  | [] => false
  | c :: _ => c = '/'

/-- Whether `needle` occurs as a contiguous run of `hay` (used to state that
an error message does or does not name an identifier). -/
def isPrefixList : List Char → List Char → Bool
  | [], _ => true
  | _ :: _, [] => false
  | a :: as, b :: bs => a = b && isPrefixList as bs

def containsRun (needle : List Char) : List Char → Bool
  | [] => isPrefixList needle []
  | c :: rest => isPrefixList needle (c :: rest) || containsRun needle rest

/-- `hay.includes(needle)`. -/
def strContains (hay needle : String) : Bool := containsRun needle.data hay.data

/-- `options.tags.split(',').map(t => t.trim())`. -/
def tagsOf (tags : String) : List String := (jsSplit tags ',').map jsTrim

/-- JavaScript truthiness of an optional string (`undefined` and `""` are
falsy). -/
def jsTruthyStr : Option String → Bool
  | none => false
  | some s => s ≠ ""

/-- `s || dflt` for an optional string. -/
def orDefault (o : Option String) (dflt : String) : String :=
  match o with
  | some s => if s = "" then dflt else s
  | none => dflt

/-- `s.substring(0, 8)`. -/
def substring8 (s : String) : String := String.mk (s.data.take 8)

/-! ## The Upload Preparer (`prepareFileForUpload`) -/

/-- What the local filesystem yields for a path: `statSync` throwing, the
stat succeeding on a non-regular file, `readFileSync` throwing, or a regular
file with its bytes and mtime.  (For a regular file that is read in full,
`stats.size` is the byte length.) -/
inductive FsFile where
  | statError (msg : String)
  | notRegular
  | readError (msg : String)
  | regular (bytes : List Nat) (mtimeIso : String)

/-- The dynamically-typed `expire` option: a number (`files upload` passes
`parseInt(options.expire)`), a string (the `attach` commands pass the raw
commander option), or `undefined`. -/
inductive JsExpire where
  | num (n : Int)
  | str (s : String)
  | undef
deriving DecidableEq, Repr

/-- The recognized options object (`public` is reserved in some Lean
contexts, hence `publicOpt`). -/
structure UploadOptions where
  expire : JsExpire := .undef
  description : Option String := none
  tags : Option String := none
  projectId : Option String := none
  publicOpt : Bool := false
deriving DecidableEq, Repr

/-- The upload payload `prepareFileForUpload` assembles.  `content` is a
JavaScript string, modelled as its code points.  Optional keys are `none`
when the JS object omits them. -/
structure UploadPayload where
  path : String
  filename : String
  content : List Nat
  size : Nat
  content_type : String
  checksum : String
  base64_encoded : Bool
  expire_minutes : JsExpire
  created_by_agent_name : Option String
  last_modified : String
  description : Option String := none
  tags : Option (List String) := none
  project_id : Option String := none
  is_public : Option Bool := none
deriving DecidableEq, Repr

/-- The display metadata of a successful result (`sizeFormatted`, which is
floating-point display logic, is outside every claim and omitted). -/
structure DisplayMetadata where
  filename : String
  size : Nat
  content_type : String
  checksum : String
  base64_encoded : Bool
  last_modified : String
deriving DecidableEq, Repr

/-- The result object: `{success: true, payload, metadata}` or
`{success: false, error}` — a failed result carries no payload fields. -/
inductive PrepareResult where
  | success (payload : UploadPayload) (metadata : DisplayMetadata)
  | failure (error : String)
deriving DecidableEq, Repr

def PrepareResult.isSuccess : PrepareResult → Bool
  | success _ _ => true
  | failure _ => false

/-- `prepareFileForUpload(localPath, remotePath, options)`, with the
filesystem's answer for `localPath` and the `SAAC_HIVE_AGENT_NAME`
environment variable as explicit inputs. -/
def prepareFileForUpload (fs : FsFile) (localPath remotePath : String)
    (options : UploadOptions) (agentName : Option String) : PrepareResult :=
  match fs with
  | .statError msg => .failure msg
  | .notRegular => .failure "Path is not a file"
  | .readError msg => .failure msg
  | .regular bytes mtimeIso =>
    let filename := basenameJs localPath
    let isText := isTextFile filename
    let content := if isText then utf8DecodeLossy bytes else b64encode bytes
    let checksum := sha256hex bytes
    let content_type := getMimeType filename
    .success
      { path := remotePath
        filename := filename
        content := content
        size := bytes.length
        content_type := content_type
        checksum := checksum
        base64_encoded := !isText
        expire_minutes := options.expire
        created_by_agent_name := agentName
        last_modified := mtimeIso
        description := if jsTruthyStr options.description then options.description else none
        tags := if jsTruthyStr options.tags then some (tagsOf (options.tags.getD "")) else none
        project_id := if jsTruthyStr options.projectId then options.projectId else none
        is_public := if options.publicOpt then some true else none }
      { filename := filename
        size := bytes.length
        content_type := content_type
        checksum := String.mk ((sha256HexChars bytes).take 16 ++ ['.', '.', '.'])
        base64_encoded := !isText
        last_modified := mtimeIso }

/-- `writeDownloadedFile`: the bytes written to the output path — base64
decoding for binary downloads, the UTF-8 bytes of the content string
otherwise. -/
def writeDownloadedFile (content : List Nat) (base64_encoded : Bool) : List Nat :=
  if base64_encoded then b64decode content else utf8Encode content


/-! ## The `bugs link-file` resolution choice (`bin/workspace.js`) -/

/-- The request body `link-file` builds: exactly the keys the JS object
carries (`file_path` or `file_id`, never both). -/
structure LinkData where
  attached_by : Option String
  description : String
  file_path : Option String := none
  file_id : Option String := none
deriving DecidableEq, Repr

/-- The `bugs link-file` action's construction of the link request: the
default description, then `file_path` if the argument starts with `/`,
otherwise `file_id`. -/
def bugsLinkFileData (bugId fileIdOrPath : String) (description : Option String)
    (agentName : Option String) : LinkData :=
  let base : LinkData :=
    { attached_by := agentName
      description := orDefault description ("Linked to bug " ++ substring8 bugId) }
  if startsWithSlash fileIdOrPath then { base with file_path := some fileIdOrPath }
  else { base with file_id := some fileIdOrPath }

/-- Follows the spec's words (§4.4 and the glossary), not the source: a
string "looks like a file ID" when it is a full 36-character UUID
(8-4-4-4-12 lowercase-insensitive hex groups) or an 8-character short
prefix of one (8 hex characters). -/
def specLooksLikeFileId (s : String) : Bool :=
  let isHex : Char → Bool := fun c =>
    c.isDigit || ('a' ≤ c && c ≤ 'f') || ('A' ≤ c && c ≤ 'F')
  (match jsSplit s '-' with
   | [a, b, c, d, e] =>
     a.length = 8 && b.length = 4 && c.length = 4 && d.length = 4 && e.length = 12 &&
       (a ++ b ++ c ++ d ++ e).data.all isHex
   | _ => false) ||
  (s.length = 8 && s.data.all isHex)

/-! ## The `bugs attach` flow (`bin/workspace.js`)

The two network calls are passed in as functions (the async transport of
`uploadFile` and `linkFileToEntity`), so the command's control flow over
every possible transport outcome is a pure function. -/

/-- Outcome of a transport call: the parsed response data, or the message
the catch-all handler prints (`error.response?.data?.error || error.message`). -/
inductive TransportResult (α : Type) where
  | ok (val : α)
  | err (msg : String)

/-- The parts of the upload response the attach flow reads
(`uploadResponse.file`). -/
structure UploadedFile where
  id : String
  filename : String
  path : String
  size : Nat
deriving DecidableEq, Repr

/-- The part of the link response the attach flow reads
(`response.attachment.id`). -/
structure AttachmentResponse where
  id : String
deriving DecidableEq, Repr

/-- What the `bugs attach` command does as observed by its caller:
`prepareFailure` prints `❌ Error preparing file: <msg>` and exits 1,
`commandError` is the generic catch handler printing `❌ Error: <msg>` and
exiting 1, `attached` is the success report. -/
inductive AttachOutcome where
  | prepareFailure (msg : String)
  | commandError (msg : String)
  | attached (bugIdShort filename path : String) (size : Nat) (attachmentIdShort : String)
deriving DecidableEq, Repr

/-- The `bugs attach` action: prepare (with the fixed `bug-<short-id>` tag
and the command's `expire` string option), upload, then link by the uploaded
file's id.  Any rejected promise lands in the single catch handler. -/
def bugsAttach (fs : FsFile) (bugId filePath : String) (description : Option String)
    (expire : String) (pathOpt : Option String) (agentName : Option String)
    (upload : UploadPayload → TransportResult UploadedFile)
    (link : LinkData → TransportResult AttachmentResponse) : AttachOutcome :=
  let filename := basenameJs filePath
  let remotePath := orDefault pathOpt ("/bugs/" ++ filename)
  match prepareFileForUpload fs filePath remotePath
      { expire := .str expire, tags := some ("bug-" ++ substring8 bugId) } agentName with
  | .failure e => .prepareFailure e
  | .success payload _ =>
    match upload payload with
    | .err msg => .commandError msg
    | .ok file =>
      let linkData : LinkData :=
        { file_id := some file.id
          attached_by := agentName
          description := orDefault description ("Bug attachment: " ++ filename) }
      match link linkData with
      | .err msg => .commandError msg
      | .ok attachment =>
        .attached (substring8 bugId) file.filename file.path file.size
          (substring8 attachment.id)

/-! ## The Attachment Graph

The CLI calls `linkFileToEntity`, `listEntityAttachments` and
`unlinkFileFromEntity` in `src/lib/api.js`, but the store behind those
endpoints is the backend, which is not part of this repository's sources. -/

/-- The six entity kinds. -/
inductive EntityType where
  | bug
  | feature
  | test_case
  | support_ticket
  | milestone
  | roadmap
deriving DecidableEq, Repr

/-- An edge of the attachment graph (§3 of the spec). -/
structure AttachmentEdge where
  attachment_id : String
  file_id : String
  entity_type : EntityType
  entity_id : String
  description : String
  attached_by : String
  attached_at : Nat
deriving DecidableEq, Repr

/-- The composite key `(file_id, entity_type, entity_id)`. -/
def edgeKey (e : AttachmentEdge) (fid : String) (et : EntityType) (eid : String) : Bool :=
  decide (e.file_id = fid) && (decide (e.entity_type = et) && decide (e.entity_id = eid))

/-- Modelled from the spec: the backend store behind
`POST /api/<entity>/<id>/attachments/link` is not in this repository's
sources.  Per §3 and §6, the `attachments` table has a unique composite
index on `(file_id, entity_type, entity_id)` and a duplicate `link` is
idempotent: it returns the existing edge rather than inserting a second
one.  Edges append in creation order. -/
def linkEdge (store : List AttachmentEdge) (et : EntityType) (eid fid : String)
    (newId description attached_by : String) (now : Nat) :
    List AttachmentEdge × AttachmentEdge :=
  match store.find? (fun e => edgeKey e fid et eid) with
  | some e => (store, e)
  | none =>
    let e : AttachmentEdge :=
      { attachment_id := newId, file_id := fid, entity_type := et, entity_id := eid,
        description := description, attached_by := attached_by, attached_at := now }
    (store ++ [e], e)

/-- Modelled from the spec: `listAttachments(entity)` — the edges of one
entity, in creation order. -/
def listEntityAttachments (store : List AttachmentEdge) (et : EntityType)
    (eid : String) : List AttachmentEdge :=
  store.filter (fun e => decide (e.entity_type = et) && decide (e.entity_id = eid))

/-- Modelled from the spec: `fileAttachments(file)` — the reverse traversal. -/
def fileAttachments (store : List AttachmentEdge) (fid : String) : List AttachmentEdge :=
  store.filter (fun e => decide (e.file_id = fid))

/-! ## Projections of a prepare result (used to state the claims) -/

def PrepareResult.contentOf : PrepareResult → List Nat
  | .success p _ => p.content
  | .failure _ => []

def PrepareResult.encodedOf : PrepareResult → Bool
  | .success p _ => p.base64_encoded
  | .failure _ => false

def PrepareResult.payloadTags : PrepareResult → Option (List String)
  | .success p _ => p.tags
  | .failure _ => none

def PrepareResult.payloadChecksum : PrepareResult → String
  | .success p _ => p.checksum
  | .failure _ => ""

def PrepareResult.payloadSize : PrepareResult → Nat
  | .success p _ => p.size
  | .failure _ => 0

def PrepareResult.payloadExpire : PrepareResult → JsExpire
  | .success p _ => p.expire_minutes
  | .failure _ => .undef

def PrepareResult.metaChecksum : PrepareResult → String
  | .success _ m => m.checksum
  | .failure _ => ""

/-! ## The claims -/

/-- C1, counterexample: `prepareFileForUpload` with `expire = 0` does not
fail with `OutOfRange` — it succeeds and produces a payload, contradicting
the claim that out-of-range TTLs are rejected before any network call. -/
theorem C1_counterexample :
    (prepareFileForUpload (FsFile.regular [104, 105] "2026-01-01T00:00:00.000Z")
        "/tmp/a.txt" "/a.txt" { expire := .num 0 } none).isSuccess = true ∧
    (prepareFileForUpload (FsFile.regular [104, 105] "2026-01-01T00:00:00.000Z")
        "/tmp/a.txt" "/a.txt" { expire := .num 43201 } none).isSuccess = true := ⟨rfl, rfl⟩

/-- C1 (amended): `prepareFileForUpload` performs no validation of the
`expire` option at all — for every regular file and every options object it
succeeds, and the payload's `expire_minutes` is the option's value copied
through unchanged (neither rejected nor clamped; any bounds enforcement is
left to the backend). -/
theorem C1_expire_not_validated (bytes : List Nat) (mtime localPath remotePath : String)
    (options : UploadOptions) (agentName : Option String) :
    (prepareFileForUpload (.regular bytes mtime) localPath remotePath options
        agentName).isSuccess = true ∧
    (prepareFileForUpload (.regular bytes mtime) localPath remotePath options
        agentName).payloadExpire = options.expire := ⟨rfl, rfl⟩

/-- C5, counterexample: the tags option `"a,,b"` is split and trimmed but the
empty entry is NOT dropped — the payload carries `["a", "", "b"]`, not
`["a", "b"]` as the claim states. -/
theorem C5_counterexample :
    (prepareFileForUpload (.regular [104] "t") "/tmp/a.txt" "/a.txt"
        { tags := some "a,,b" } none).payloadTags = some ["a", "", "b"] ∧
    some ["a", "", "b"] ≠ some ["a", "b"] := ⟨by decide, by decide⟩

/-- C5 (amended): for every non-empty tags option string, the payload's
tags field is the comma-split of the string with each entry trimmed, order
preserved, duplicates kept — and empty entries kept as well, not dropped. -/
theorem C5_tags (bytes : List Nat) (mtime localPath remotePath tags : String)
    (options : UploadOptions) (agentName : Option String)
    (htags : options.tags = some tags) (hne : tags ≠ "") :
    (prepareFileForUpload (.regular bytes mtime) localPath remotePath options
        agentName).payloadTags = some ((jsSplit tags ',').map jsTrim) := by
  have ht : jsTruthyStr (some tags) = true := by simp [jsTruthyStr, hne]
  simp only [prepareFileForUpload, PrepareResult.payloadTags, htags, ht, if_true,
    Option.getD_some, tagsOf]

/-- C5 witness: a concrete instance with whitespace, an inner empty entry
and a trailing empty entry. -/
theorem C5_tags_witness :
    ({ tags := some " a , b ,c," : UploadOptions}.tags = some " a , b ,c,") ∧
    (" a , b ,c," ≠ "") ∧
    (prepareFileForUpload (.regular [104] "t") "/tmp/a.txt" "/a.txt"
        { tags := some " a , b ,c," } none).payloadTags =
      some ((jsSplit " a , b ,c," ',').map jsTrim) :=
  ⟨rfl, by decide,
    C5_tags [104] "t" "/tmp/a.txt" "/a.txt" " a , b ,c," { tags := some " a , b ,c," }
      none rfl (by decide)⟩

/-- C6: for every regular file, in both the TEXT and the BINARY branch the
payload's checksum is the SHA-256 hex digest of the file's raw bytes —
computed before any encoding, never over the base64 envelope — and the
payload's size is the raw byte count. -/
theorem C6_checksum_over_raw_bytes (bytes : List Nat) (mtime localPath remotePath : String)
    (options : UploadOptions) (agentName : Option String) :
    (prepareFileForUpload (.regular bytes mtime) localPath remotePath options
        agentName).payloadChecksum = sha256hex bytes ∧
    (prepareFileForUpload (.regular bytes mtime) localPath remotePath options
        agentName).payloadSize = bytes.length := ⟨rfl, rfl⟩

/-- C7: `isTextFile` is a total function of the filename alone: it is `true`
exactly when the lower-cased extension is on the closed allow-list
`[".txt", ".md"]`, so `report.txt` and `notes.md` classify as TEXT while
`report.PDF` and `data.bin` (and every other extension) classify as BINARY. -/
theorem C7_classifier (f : String) :
    (isTextFile f = true ↔
      toLowerJs (extnameJs f) = ".txt" ∨ toLowerJs (extnameJs f) = ".md") ∧
    isTextFile "report.txt" = true ∧ isTextFile "notes.md" = true ∧
    isTextFile "report.PDF" = false ∧ isTextFile "data.bin" = false := by
  refine ⟨?_, by decide, by decide, by decide, by decide⟩
  simp [isTextFile, List.contains_cons, beq_iff_eq]

/-- C8, counterexample: `"notes.txt"` does not look like a file ID (it is
neither a 36-character UUID nor an 8-character hex prefix), yet `link-file`
sends it as `file_id`, not as a remote path — the dichotomy the code applies
is a leading `/`, not ID shape. -/
theorem C8_counterexample :
    specLooksLikeFileId "notes.txt" = false ∧
    (bugsLinkFileData "48f3eaaf-0b59-4537-a4e4-d0f21dd5d4a6" "notes.txt" none
        none).file_id = some "notes.txt" ∧
    (bugsLinkFileData "48f3eaaf-0b59-4537-a4e4-d0f21dd5d4a6" "notes.txt" none
        none).file_path = none := ⟨by decide, by decide, by decide⟩

/-- C8 (amended): `link-file` attempts exactly one resolution path, chosen
deterministically by a leading slash: an argument starting with `/` is sent
as `file_path` and anything else is sent as `file_id` — never both. -/
theorem C8_resolution (bugId fileRef : String) (description agentName : Option String) :
    (bugsLinkFileData bugId fileRef description agentName).file_path =
      (if startsWithSlash fileRef then some fileRef else none) ∧
    (bugsLinkFileData bugId fileRef description agentName).file_id =
      (if startsWithSlash fileRef then none else some fileRef) := by
  cases hs : startsWithSlash fileRef <;> simp [bugsLinkFileData, hs]

/-- C9: an unreadable path, a failed stat, or a non-regular file makes
`prepareFileForUpload` return the failure result, which carries only the
error message — by construction of the result type there are no payload
fields on a failed result. -/
theorem C9_io_failure (msg localPath remotePath : String) (options : UploadOptions)
    (agentName : Option String) :
    prepareFileForUpload (.statError msg) localPath remotePath options agentName =
      .failure msg ∧
    prepareFileForUpload .notRegular localPath remotePath options agentName =
      .failure "Path is not a file" ∧
    prepareFileForUpload (.readError msg) localPath remotePath options agentName =
      .failure msg := ⟨rfl, rfl, rfl⟩

theorem sha256HexChars_length (msg : List Nat) : (sha256HexChars msg).length = 64 := by
  simp [sha256HexChars, wordHexChars]

/-- C10: on every successful prepare, the display metadata's checksum is the
first 16 hex characters of the digest followed by `"..."` (19 characters),
while the payload's checksum is the full 64-character digest, so the two
always differ. -/
theorem C10_display_checksum (bytes : List Nat) (mtime localPath remotePath : String)
    (options : UploadOptions) (agentName : Option String) :
    (prepareFileForUpload (.regular bytes mtime) localPath remotePath options
        agentName).metaChecksum =
      String.mk (((prepareFileForUpload (.regular bytes mtime) localPath remotePath options
        agentName).payloadChecksum).data.take 16 ++ ['.', '.', '.']) ∧
    (prepareFileForUpload (.regular bytes mtime) localPath remotePath options
        agentName).payloadChecksum.length = 64 ∧
    (prepareFileForUpload (.regular bytes mtime) localPath remotePath options
        agentName).metaChecksum.length = 19 ∧
    (prepareFileForUpload (.regular bytes mtime) localPath remotePath options
        agentName).metaChecksum ≠
      (prepareFileForUpload (.regular bytes mtime) localPath remotePath options
        agentName).payloadChecksum := by
  have hlen : (sha256HexChars bytes).length = 64 := sha256HexChars_length bytes
  have hfull : (prepareFileForUpload (.regular bytes mtime) localPath remotePath options
      agentName).payloadChecksum = sha256hex bytes := rfl
  have hmeta : (prepareFileForUpload (.regular bytes mtime) localPath remotePath options
      agentName).metaChecksum =
      String.mk ((sha256HexChars bytes).take 16 ++ ['.', '.', '.']) := rfl
  have hmlen : (String.mk ((sha256HexChars bytes).take 16 ++ ['.', '.', '.'])).length = 19 := by
    simp [String.length, List.length_take, hlen]
  refine ⟨rfl, ?_, ?_, ?_⟩
  · rw [hfull]
    simp [sha256hex, String.length, hlen]
  · rw [hmeta, hmlen]
  · rw [hmeta, hfull]
    intro h
    have := congrArg String.length h
    rw [hmlen] at this
    simp [sha256hex, String.length, hlen] at this


/-- C2, counterexample: the file `a.txt` with the single byte 0xFF is
classified TEXT, so its content is `buf.toString('utf8')`, which replaces
the invalid byte with U+FFFD; writing the download back yields the
replacement character's UTF-8 bytes, and the recomputed digest differs from
the original file's digest. -/
theorem C2_counterexample :
    sha256hex (writeDownloadedFile
        ((prepareFileForUpload (.regular [255] "t") "/tmp/a.txt" "/a.txt" {} none).contentOf)
        ((prepareFileForUpload (.regular [255] "t") "/tmp/a.txt" "/a.txt" {}
          none).encodedOf)) ≠
      sha256hex [255] := by decide

/-- C2 (amended): for every regular file whose bytes are genuine bytes and —
when the filename classifies as TEXT — form valid UTF-8, decoding the
prepared content as on download recovers the bytes exactly, so the
recomputed SHA-256 digest equals the original digest.  The BINARY branch
needs no side condition; the TEXT branch loses bytes that are not valid
UTF-8 (see the counterexample). -/
theorem C2_roundtrip (bytes : List Nat) (mtime localPath remotePath : String)
    (options : UploadOptions) (agentName : Option String)
    (hbytes : validBytes bytes = true)
    (htext : isTextFile (basenameJs localPath) = true → validUtf8 bytes = true) :
    writeDownloadedFile
        ((prepareFileForUpload (.regular bytes mtime) localPath remotePath options
          agentName).contentOf)
        ((prepareFileForUpload (.regular bytes mtime) localPath remotePath options
          agentName).encodedOf) = bytes ∧
    sha256hex (writeDownloadedFile
        ((prepareFileForUpload (.regular bytes mtime) localPath remotePath options
          agentName).contentOf)
        ((prepareFileForUpload (.regular bytes mtime) localPath remotePath options
          agentName).encodedOf)) = sha256hex bytes := by
  suffices h : writeDownloadedFile
      ((prepareFileForUpload (.regular bytes mtime) localPath remotePath options
        agentName).contentOf)
      ((prepareFileForUpload (.regular bytes mtime) localPath remotePath options
        agentName).encodedOf) = bytes by
    exact ⟨h, by rw [h]⟩
  have hc : (prepareFileForUpload (.regular bytes mtime) localPath remotePath options
      agentName).contentOf =
      (if isTextFile (basenameJs localPath) then utf8DecodeLossy bytes
       else b64encode bytes) := rfl
  have he : (prepareFileForUpload (.regular bytes mtime) localPath remotePath options
      agentName).encodedOf = !(isTextFile (basenameJs localPath)) := rfl
  rw [hc, he]
  cases hI : isTextFile (basenameJs localPath)
  · simp only [hI, Bool.false_eq_true, if_false, Bool.not_false, writeDownloadedFile,
      if_pos]
    exact b64decode_encode bytes hbytes
  · simp only [hI, if_true, Bool.not_true, writeDownloadedFile, Bool.false_eq_true,
      if_false]
    exact utf8Encode_decode bytes (htext hI)

/-- C2 witness: a concrete TEXT file with valid UTF-8 bytes round-trips. -/
theorem C2_roundtrip_witness :
    validBytes [104, 105] = true ∧
    writeDownloadedFile
        ((prepareFileForUpload (.regular [104, 105] "t") "/tmp/a.txt" "/a.txt" {}
          none).contentOf)
        ((prepareFileForUpload (.regular [104, 105] "t") "/tmp/a.txt" "/a.txt" {}
          none).encodedOf) = [104, 105] :=
  ⟨by decide,
    (C2_roundtrip [104, 105] "t" "/tmp/a.txt" "/a.txt" {} none (by decide)
      (fun _ => by decide)).1⟩

/-- C3: linking the same `(entity, file)` pair twice against a store in
which the pair is absent yields exactly one edge: the second call leaves the
store unchanged and returns the existing edge (the idempotent policy,
uniform in the entity type since `linkEdge` is one function over all six
kinds), and each traversal direction contains exactly one edge for the
pair. -/
theorem C3_link_idempotent (store : List AttachmentEdge) (et : EntityType)
    (eid fid id1 id2 d1 d2 a1 a2 : String) (t1 t2 : Nat)
    (habs : store.countP (fun e => edgeKey e fid et eid) = 0) :
    (linkEdge (linkEdge store et eid fid id1 d1 a1 t1).1 et eid fid id2 d2 a2 t2).1 =
      (linkEdge store et eid fid id1 d1 a1 t1).1 ∧
    (linkEdge (linkEdge store et eid fid id1 d1 a1 t1).1 et eid fid id2 d2 a2 t2).2 =
      (linkEdge store et eid fid id1 d1 a1 t1).2 ∧
    (listEntityAttachments
        (linkEdge (linkEdge store et eid fid id1 d1 a1 t1).1 et eid fid id2 d2 a2 t2).1
        et eid).countP (fun e => decide (e.file_id = fid)) = 1 ∧
    (fileAttachments
        (linkEdge (linkEdge store et eid fid id1 d1 a1 t1).1 et eid fid id2 d2 a2 t2).1
        fid).countP
      (fun e => decide (e.entity_type = et) && decide (e.entity_id = eid)) = 1 := by
  have hnone : store.find? (fun e => edgeKey e fid et eid) = none := by
    rw [List.find?_eq_none]
    intro x hx
    simpa using List.countP_eq_zero.mp habs x hx
  have hkeyE : edgeKey (⟨id1, fid, et, eid, d1, a1, t1⟩ : AttachmentEdge) fid et eid =
      true := by
    simp [edgeKey]
  have h1 : linkEdge store et eid fid id1 d1 a1 t1 =
      (store ++ [⟨id1, fid, et, eid, d1, a1, t1⟩], ⟨id1, fid, et, eid, d1, a1, t1⟩) := by
    rw [linkEdge, hnone]
  have hfind2 : List.find? (fun e => edgeKey e fid et eid)
      (store ++ [(⟨id1, fid, et, eid, d1, a1, t1⟩ : AttachmentEdge)]) =
      some (⟨id1, fid, et, eid, d1, a1, t1⟩ : AttachmentEdge) := by
    rw [List.find?_append, hnone, Option.none_or]
    exact List.find?_cons_of_pos _ hkeyE
  have h2 : linkEdge (store ++ [(⟨id1, fid, et, eid, d1, a1, t1⟩ : AttachmentEdge)])
      et eid fid id2 d2 a2 t2 =
      (store ++ [⟨id1, fid, et, eid, d1, a1, t1⟩], ⟨id1, fid, et, eid, d1, a1, t1⟩) := by
    rw [linkEdge, hfind2]
  have habs' : store.countP
      (fun e => decide (e.file_id = fid) &&
        (decide (e.entity_type = et) && decide (e.entity_id = eid))) = 0 := by
    simpa [edgeKey] using habs
  refine ⟨by rw [h1, h2], by rw [h1, h2], ?_, ?_⟩
  · rw [h1, h2]
    rw [listEntityAttachments, List.countP_filter, List.countP_append]
    rw [habs']
    simp [hkeyE, edgeKey]
  · rw [h1, h2]
    rw [fileAttachments, List.countP_filter, List.countP_append]
    have hcomm : (fun (e : AttachmentEdge) =>
        (decide (e.entity_type = et) && decide (e.entity_id = eid)) &&
          decide (e.file_id = fid)) =
        (fun e => decide (e.file_id = fid) &&
          (decide (e.entity_type = et) && decide (e.entity_id = eid))) :=
      funext fun e => Bool.and_comm _ _
    rw [hcomm, habs']
    simp [hkeyE, edgeKey]

/-- C3 witness: linking `(bug B1, file F1)` twice into the empty store. -/
theorem C3_link_idempotent_witness :
    (([] : List AttachmentEdge).countP (fun e => edgeKey e "F1" .bug "B1") = 0) ∧
    ((linkEdge (linkEdge [] .bug "B1" "F1" "A1" "d1" "alice" 1).1 .bug "B1" "F1" "A2"
        "d2" "bob" 2).1 = (linkEdge [] .bug "B1" "F1" "A1" "d1" "alice" 1).1 ∧
    (linkEdge (linkEdge [] .bug "B1" "F1" "A1" "d1" "alice" 1).1 .bug "B1" "F1" "A2"
        "d2" "bob" 2).2 = (linkEdge [] .bug "B1" "F1" "A1" "d1" "alice" 1).2 ∧
    (listEntityAttachments
        (linkEdge (linkEdge [] .bug "B1" "F1" "A1" "d1" "alice" 1).1 .bug "B1" "F1" "A2"
          "d2" "bob" 2).1 .bug "B1").countP (fun e => decide (e.file_id = "F1")) = 1 ∧
    (fileAttachments
        (linkEdge (linkEdge [] .bug "B1" "F1" "A1" "d1" "alice" 1).1 .bug "B1" "F1" "A2"
          "d2" "bob" 2).1 "F1").countP
      (fun e => decide (e.entity_type = .bug) && decide (e.entity_id = "B1")) = 1) :=
  ⟨by decide,
    C3_link_idempotent [] .bug "B1" "F1" "A1" "A2" "d1" "d2" "alice" "bob" 1 2 (by decide)⟩

/-- The transport behaviours of the observed partial failure: the upload
endpoint accepts the file, the link endpoint returns the backend error. -/
def uploadOkC4 : UploadPayload → TransportResult UploadedFile :=
  fun _ => .ok { id := "aaaa1111-2222-3333-4444-555566667777", filename := "shot.txt",
                 path := "/bugs/shot.txt", size := 2 }

def linkErrC4 : LinkData → TransportResult AttachmentResponse :=
  fun _ => .err "relation \"undefined\" does not exist"

def uploadErrC4 : UploadPayload → TransportResult UploadedFile :=
  fun _ => .err "relation \"undefined\" does not exist"

/-- C4, counterexample: when the upload succeeds and the link call fails,
`bugs attach` lands in its single catch handler: the outcome carries only
the transport message, is indistinguishable from a full failure (upload
failed, no file created) with the same message, and does not contain the
orphaned file's identifier. -/
theorem C4_counterexample :
    bugsAttach (.regular [104, 105] "t") "48f3eaaf-0b59-4537-a4e4-d0f21dd5d4a6"
        "/tmp/shot.txt" none "43200" none none uploadOkC4 linkErrC4 =
      AttachOutcome.commandError "relation \"undefined\" does not exist" ∧
    bugsAttach (.regular [104, 105] "t") "48f3eaaf-0b59-4537-a4e4-d0f21dd5d4a6"
        "/tmp/shot.txt" none "43200" none none uploadErrC4 linkErrC4 =
      bugsAttach (.regular [104, 105] "t") "48f3eaaf-0b59-4537-a4e4-d0f21dd5d4a6"
        "/tmp/shot.txt" none "43200" none none uploadOkC4 linkErrC4 ∧
    strContains "relation \"undefined\" does not exist"
      "aaaa1111-2222-3333-4444-555566667777" = false :=
  ⟨rfl, rfl, by decide⟩

/-- C4 (amended): whenever the upload step succeeds and the link step fails,
the command reports the generic `commandError` carrying only the transport
message — the very outcome a full failure with the same message produces —
so the partial failure is not surfaced distinctly and the orphaned file's
identifier is not named unless the transport message itself contains it. -/
theorem C4_partial_failure_generic (bytes : List Nat) (mtime bugId filePath : String)
    (description : Option String) (expire : String) (pathOpt agentName : Option String)
    (f : UploadedFile) (e : String) :
    bugsAttach (.regular bytes mtime) bugId filePath description expire pathOpt agentName
        (fun _ => .ok f) (fun _ => .err e) = .commandError e ∧
    bugsAttach (.regular bytes mtime) bugId filePath description expire pathOpt agentName
        (fun _ => .err e) (fun _ => .err e) = .commandError e := ⟨rfl, rfl⟩

end Workspace
